import Mathlib

/-!
Verification of the core logic of TS4ModFolderBuilder
(src/TS4ModFolderBuilderog.py): the settings store
(load_settings / save_settings), the naming rule engine
(apply_naming_rules) and the mod scaffolder (generate_mod).

Python values read from the settings JSON file are modelled by the
inductive type RVal below.  Python dictionaries are modelled as
association lists in insertion order, which is exactly the observable
behaviour of a CPython dict: lookup finds the (unique) binding,
assignment of an existing key keeps its position, assignment of a new
key appends it at the end.

The one piece of genuinely stateful behaviour is the aliasing between
the module level DEFAULT_SETTINGS dict and the settings_data dict
produced by DEFAULT_SETTINGS.copy() (a shallow copy): the two nested
dicts stored under the keys naming_rules and backup_options are shared
objects.  The model therefore keeps those two dict objects as explicit
mutable cells inside PyState, while the top level DEFAULT_SETTINGS
dict, which the program never mutates, is a constant whose dict-valued
entries are references to the two cells (SVal.refNR / SVal.refBO).
Entries that hold freshly parsed JSON values are immutable trees
(SVal.val): the program never mutates a parsed object through a second
alias, so representing them as values is observationally faithful.
-/

/-- A JSON value as produced by json.load.  JSON numbers are modelled
opaquely as integers; none of the verified code inspects them. -/
inductive RVal where
  | rstr : String → RVal
  | rbool : Bool → RVal
  | rnum : Int → RVal
  | rnull : RVal
  | rlist : List RVal → RVal
  | rdict : List (String × RVal) → RVal

/-- A Python dict with RVal values, in insertion order. -/
abbrev RDict := List (String × RVal)

/-- Python dict lookup d[k] (as an Option): the binding of k, if any. -/
def dictGet {α : Type} (d : List (String × α)) (k : String) : Option α :=
  match d with
  | [] => none
  | (k₁, v) :: rest => if k₁ = k then some v else dictGet rest k

/-- Python dict assignment d[k] = v: replaces the binding of k in
place (keeping its position) or appends a new binding at the end. -/
def dictSet {α : Type} (d : List (String × α)) (k : String) (v : α) :
    List (String × α) :=
  match d with
  | [] => [(k, v)]
  | (k₁, v₁) :: rest =>
      if k₁ = k then (k₁, v) :: rest else (k₁, v₁) :: dictSet rest k v

/-- Python d.update(e): assign every binding of e into d, in order. -/
def dictUpdate {α : Type} (d e : List (String × α)) : List (String × α) :=
  e.foldl (fun acc kv => dictSet acc kv.1 kv.2) d

/-- Python membership test k in d. -/
def dictHas {α : Type} (d : List (String × α)) (k : String) : Bool :=
  (dictGet d k).isSome

/-- A value slot of the top level settings dict.  refNR and refBO are
references to the two shared nested dict objects created at module
load time for DEFAULT_SETTINGS (lines 53-57 and 60-62 of the source);
val v is any other Python value stored in the slot. -/
inductive SVal where
  | refNR : SVal
  | refBO : SVal
  | val : RVal → SVal

/-- The module level mutable state of the settings store: the two
shared nested dict objects and the current settings_data dict. -/
structure PyState where
  nrCell : RDict
  boCell : RDict
  settings_data : List (String × SVal)

/-- Initial contents of the dict DEFAULT_SETTINGS naming_rules points
to (source lines 53-57). -/
def nrDefault : RDict :=
  [("no_spaces_folders", .rbool false),
   ("no_spaces_files", .rbool false),
   ("convert_spaces_underscores", .rbool false)]

/-- Initial contents of the dict DEFAULT_SETTINGS backup_options
points to (source line 60-62). -/
def boDefault : RDict := [("always_backup", .rbool true)]

/-- DEFAULT_MAIN_MOD_FOLDER (source line 47), parameterised by the
home directory returned by Path.home(). -/
def DEFAULT_MAIN_MOD_FOLDER (home : String) : String :=
  home ++ "/Documents/Electronic Arts/The Sims 4/Mods"

/-- The top level DEFAULT_SETTINGS dict (source lines 49-64).  The
program never assigns into this dict, so it is a constant; its two
dict-valued entries are references to the shared cells. -/
def DEFAULT_SETTINGS (home : String) : List (String × SVal) :=
  [("main_mods_folder", .val (.rstr (DEFAULT_MAIN_MOD_FOLDER home))),
   ("generated_mods_enabled", .val (.rbool false)),
   ("temp_mod_timer", .val (.rstr "Disabled")),
   ("naming_rules", .refNR),
   ("show_open_location_prompt", .val (.rbool true)),
   ("show_save_success", .val (.rbool true)),
   ("backup_options", .refBO),
   ("init_py_in_scripts", .val (.rbool true))]

/-- The module state right after import: settings_data is a shallow
copy of DEFAULT_SETTINGS (source line 66), so it shares the two nested
cells, which still hold their pristine contents. -/
def initState (home : String) : PyState :=
  ⟨nrDefault, boDefault, DEFAULT_SETTINGS home⟩

/-- The outcome of one attempt to read and parse the settings file:
the file is absent, the file fails to read or parse (json.JSONDecodeError
or OSError, source line 112), or it parses to a JSON object with the
given bindings. -/
inductive FileRead where
  | missing : FileRead
  | corrupt : FileRead
  | parsed : List (String × RVal) → FileRead

/-- What load_settings signals to its caller: nothing of note, or the
corrupted-settings error dialog of source line 114. -/
inductive LoadOutcome where
  | ok : LoadOutcome
  | noFile : LoadOutcome
  | configCorrupt : LoadOutcome
  deriving DecidableEq

/-- One iteration of the merge loop of load_settings (source lines
105-109) for the binding (key, value) of the loaded dict:
if key is present in settings_data with a dict value and value is a
dict, merge with settings_data[key].update(value) - mutating the
shared cell when the slot is one of the two references - otherwise
assign settings_data[key] = value. -/
def mergeStep (st : PyState) (key : String) (value : RVal) : PyState :=
  match dictGet st.settings_data key, value with
  | some .refNR, .rdict e => { st with nrCell := dictUpdate st.nrCell e }
  | some .refBO, .rdict e => { st with boCell := dictUpdate st.boCell e }
  | some (.val (.rdict d)), .rdict e =>
      { st with settings_data :=
          dictSet st.settings_data key (.val (.rdict (dictUpdate d e))) }
  | _, _ =>
      { st with settings_data := dictSet st.settings_data key (.val value) }

/-- load_settings (source lines 92-118).  In every branch settings_data
is rebound to DEFAULT_SETTINGS.copy() - a shallow copy, hence the
constant top level dict sharing the two cells, whose current (possibly
already mutated) contents are kept.  On a parsed file the merge loop
then runs over the loaded bindings in order. -/
def load_settings (home : String) (st : PyState) (file : FileRead) :
    PyState × LoadOutcome :=
  match file with
  | .missing => ({ st with settings_data := DEFAULT_SETTINGS home }, .noFile)
  | .corrupt =>
      ({ st with settings_data := DEFAULT_SETTINGS home }, .configCorrupt)
  | .parsed items =>
      (items.foldl (fun s kv => mergeStep s kv.1 kv.2)
        { st with settings_data := DEFAULT_SETTINGS home }, .ok)

/-- Reading a settings slot as a plain value: a reference slot reads
the current contents of its cell. -/
def readSV (nr bo : RDict) : SVal → RVal
  | .refNR => .rdict nr
  | .refBO => .rdict bo
  | .val v => v

/-- Reading a whole settings dict as plain values, given the current
cell contents. -/
def readRow (nr bo : RDict) (d : List (String × SVal)) : RDict :=
  d.map (fun kv => (kv.1, readSV nr bo kv.2))

/-- The observable contents of settings_data in a given state. -/
def readSettings (st : PyState) : RDict :=
  readRow st.nrCell st.boCell st.settings_data

/-- Modelled from the specification wording of the merge (section 4.1
and claim C1): one loaded binding merged into a plain dict - if both
the present value and the loaded value are dicts, merge key by key,
otherwise the loaded value replaces (or introduces) the binding. -/
def specMergeStep (acc : RDict) (k : String) (v : RVal) : RDict :=
  match dictGet acc k, v with
  | some (.rdict d), .rdict e => dictSet acc k (.rdict (dictUpdate d e))
  | _, _ => dictSet acc k v

/-- Modelled from the specification wording of the merge: the defaults
merged one level deep with all loaded bindings, in order. -/
def specMerge (defaults loaded : RDict) : RDict :=
  loaded.foldl (fun acc kv => specMergeStep acc kv.1 kv.2) defaults

/-- Whether a slot is the reference to the shared naming_rules cell. -/
def isRefNR : SVal → Bool
  | .refNR => true
  | _ => false

/-- Whether a slot is the reference to the shared backup_options cell. -/
def isRefBO : SVal → Bool
  | .refBO => true
  | _ => false

/-- Whether a value is a Python dict (isinstance(v, dict)). -/
def isRDict : RVal → Bool
  | .rdict _ => true
  | _ => false

/-- Number of slots of a settings dict holding the naming_rules
reference. -/
def nrRefCount (d : List (String × SVal)) : Nat :=
  d.countP (fun kv => isRefNR kv.2)

/-- Number of slots of a settings dict holding the backup_options
reference. -/
def boRefCount (d : List (String × SVal)) : Nat :=
  d.countP (fun kv => isRefBO kv.2)

theorem nrRefCount_cons (k : String) (v : SVal) (rest : List (String × SVal)) :
    nrRefCount ((k, v) :: rest)
      = nrRefCount rest + (if isRefNR v then 1 else 0) := by
  simp [nrRefCount, List.countP_cons]

theorem boRefCount_cons (k : String) (v : SVal) (rest : List (String × SVal)) :
    boRefCount ((k, v) :: rest)
      = boRefCount rest + (if isRefBO v then 1 else 0) := by
  simp [boRefCount, List.countP_cons]

theorem readSV_congr_nr (nr nr' bo : RDict) (v : SVal) (h : isRefNR v = false) :
    readSV nr' bo v = readSV nr bo v := by
  cases v with
  | refNR => simp [isRefNR] at h
  | refBO => rfl
  | val u => rfl

theorem readSV_congr_bo (nr bo bo' : RDict) (v : SVal) (h : isRefBO v = false) :
    readSV nr bo' v = readSV nr bo v := by
  cases v with
  | refNR => rfl
  | refBO => simp [isRefBO] at h
  | val u => rfl

theorem readRow_nr_invariant (nr nr' bo : RDict) (d : List (String × SVal))
    (h : nrRefCount d = 0) : readRow nr' bo d = readRow nr bo d := by
  induction d with
  | nil => rfl
  | cons kv rest ih =>
      obtain ⟨k₁, v₁⟩ := kv
      rw [nrRefCount_cons] at h
      have hv : isRefNR v₁ = false := by
        by_contra hc
        simp only [Bool.not_eq_false] at hc
        simp [hc] at h
      have hrest : nrRefCount rest = 0 := by omega
      simp only [readRow, List.map_cons]
      rw [show readRow nr' bo rest = rest.map fun kv => (kv.1, readSV nr' bo kv.2) from rfl] at *
      have := ih hrest
      simp only [readRow] at this
      rw [this, readSV_congr_nr nr nr' bo v₁ hv]

theorem readRow_bo_invariant (nr bo bo' : RDict) (d : List (String × SVal))
    (h : boRefCount d = 0) : readRow nr bo' d = readRow nr bo d := by
  induction d with
  | nil => rfl
  | cons kv rest ih =>
      obtain ⟨k₁, v₁⟩ := kv
      rw [boRefCount_cons] at h
      have hv : isRefBO v₁ = false := by
        by_contra hc
        simp only [Bool.not_eq_false] at hc
        simp [hc] at h
      have hrest : boRefCount rest = 0 := by omega
      simp only [readRow, List.map_cons]
      have := ih hrest
      simp only [readRow] at this
      rw [this, readSV_congr_bo nr bo bo' v₁ hv]

theorem one_le_nrRefCount_of_get (d : List (String × SVal)) (k : String)
    (h : dictGet d k = some .refNR) : 1 ≤ nrRefCount d := by
  induction d with
  | nil => simp [dictGet] at h
  | cons kv rest ih =>
      obtain ⟨k₁, v₁⟩ := kv
      rw [nrRefCount_cons]
      by_cases hk : k₁ = k
      · simp only [dictGet, if_pos hk, Option.some.injEq] at h
        subst h
        simp [isRefNR]
      · simp only [dictGet, if_neg hk] at h
        have := ih h
        omega

theorem one_le_boRefCount_of_get (d : List (String × SVal)) (k : String)
    (h : dictGet d k = some .refBO) : 1 ≤ boRefCount d := by
  induction d with
  | nil => simp [dictGet] at h
  | cons kv rest ih =>
      obtain ⟨k₁, v₁⟩ := kv
      rw [boRefCount_cons]
      by_cases hk : k₁ = k
      · simp only [dictGet, if_pos hk, Option.some.injEq] at h
        subst h
        simp [isRefBO]
      · simp only [dictGet, if_neg hk] at h
        have := ih h
        omega

theorem dictGet_readRow (nr bo : RDict) (d : List (String × SVal)) (k : String) :
    dictGet (readRow nr bo d) k = (dictGet d k).map (readSV nr bo) := by
  induction d with
  | nil => rfl
  | cons kv rest ih =>
      obtain ⟨k₁, v₁⟩ := kv
      by_cases h : k₁ = k
      · simp [readRow, dictGet, h]
      · simp only [readRow, List.map_cons, dictGet, if_neg h]
        simpa [readRow] using ih

theorem readRow_dictSet_val (nr bo : RDict) (d : List (String × SVal))
    (k : String) (v : RVal) :
    readRow nr bo (dictSet d k (.val v)) = dictSet (readRow nr bo d) k v := by
  induction d with
  | nil => rfl
  | cons kv rest ih =>
      obtain ⟨k₁, v₁⟩ := kv
      by_cases h : k₁ = k
      · simp [readRow, dictSet, h, readSV]
      · simp only [dictSet, if_neg h, readRow, List.map_cons]
        simpa [readRow] using ih

theorem readRow_set_nrCell (nr nr' bo : RDict) (d : List (String × SVal))
    (k : String) (hget : dictGet d k = some .refNR)
    (hcount : nrRefCount d ≤ 1) :
    readRow nr' bo d = dictSet (readRow nr bo d) k (.rdict nr') := by
  induction d with
  | nil => simp [dictGet] at hget
  | cons kv rest ih =>
      obtain ⟨k₁, v₁⟩ := kv
      rw [nrRefCount_cons] at hcount
      by_cases h : k₁ = k
      · simp only [dictGet, if_pos h, Option.some.injEq] at hget
        subst hget
        have hrest : nrRefCount rest = 0 := by
          simp only [isRefNR, if_pos] at hcount
          omega
        simp only [readRow, List.map_cons, dictSet, if_pos h]
        have := readRow_nr_invariant nr nr' bo rest hrest
        simp only [readRow] at this
        rw [this]
        rfl
      · simp only [dictGet, if_neg h] at hget
        have h1 := one_le_nrRefCount_of_get rest k hget
        have hv : isRefNR v₁ = false := by
          by_contra hc
          simp only [Bool.not_eq_false] at hc
          simp [hc] at hcount
          omega
        have hrest : nrRefCount rest ≤ 1 := by omega
        simp only [readRow, List.map_cons, dictSet, if_neg h]
        have := ih hget hrest
        simp only [readRow] at this
        rw [this, readSV_congr_nr nr nr' bo v₁ hv]

theorem readRow_set_boCell (nr bo bo' : RDict) (d : List (String × SVal))
    (k : String) (hget : dictGet d k = some .refBO)
    (hcount : boRefCount d ≤ 1) :
    readRow nr bo' d = dictSet (readRow nr bo d) k (.rdict bo') := by
  induction d with
  | nil => simp [dictGet] at hget
  | cons kv rest ih =>
      obtain ⟨k₁, v₁⟩ := kv
      rw [boRefCount_cons] at hcount
      by_cases h : k₁ = k
      · simp only [dictGet, if_pos h, Option.some.injEq] at hget
        subst hget
        have hrest : boRefCount rest = 0 := by
          simp only [isRefBO, if_pos] at hcount
          omega
        simp only [readRow, List.map_cons, dictSet, if_pos h]
        have := readRow_bo_invariant nr bo bo' rest hrest
        simp only [readRow] at this
        rw [this]
        rfl
      · simp only [dictGet, if_neg h] at hget
        have h1 := one_le_boRefCount_of_get rest k hget
        have hv : isRefBO v₁ = false := by
          by_contra hc
          simp only [Bool.not_eq_false] at hc
          simp [hc] at hcount
          omega
        have hrest : boRefCount rest ≤ 1 := by omega
        simp only [readRow, List.map_cons, dictSet, if_neg h]
        have := ih hget hrest
        simp only [readRow] at this
        rw [this, readSV_congr_bo nr bo bo' v₁ hv]

theorem nrRefCount_dictSet_val (d : List (String × SVal)) (k : String)
    (v : RVal) : nrRefCount (dictSet d k (.val v)) ≤ nrRefCount d := by
  induction d with
  | nil => simp [dictSet, nrRefCount, List.countP_cons, isRefNR]
  | cons kv rest ih =>
      obtain ⟨k₁, v₁⟩ := kv
      by_cases h : k₁ = k
      · have hset : dictSet ((k₁, v₁) :: rest) k (SVal.val v)
            = (k₁, SVal.val v) :: rest := by
          simp [dictSet, h]
        rw [hset]
        have h2 : nrRefCount ((k₁, SVal.val v) :: rest) = nrRefCount rest := by
          rw [nrRefCount_cons]
          rfl
        rw [h2, nrRefCount_cons]
        omega
      · simp only [dictSet, if_neg h, nrRefCount_cons]
        exact Nat.add_le_add_right ih _

theorem boRefCount_dictSet_val (d : List (String × SVal)) (k : String)
    (v : RVal) : boRefCount (dictSet d k (.val v)) ≤ boRefCount d := by
  induction d with
  | nil => simp [dictSet, boRefCount, List.countP_cons, isRefBO]
  | cons kv rest ih =>
      obtain ⟨k₁, v₁⟩ := kv
      by_cases h : k₁ = k
      · have hset : dictSet ((k₁, v₁) :: rest) k (SVal.val v)
            = (k₁, SVal.val v) :: rest := by
          simp [dictSet, h]
        rw [hset]
        have h2 : boRefCount ((k₁, SVal.val v) :: rest) = boRefCount rest := by
          rw [boRefCount_cons]
          rfl
        rw [h2, boRefCount_cons]
        omega
      · simp only [dictSet, if_neg h, boRefCount_cons]
        exact Nat.add_le_add_right ih _

theorem mergeStep_refNR_dict (st : PyState) (k : String) (e : RDict)
    (h : dictGet st.settings_data k = some .refNR) :
    mergeStep st k (.rdict e) = { st with nrCell := dictUpdate st.nrCell e } := by
  unfold mergeStep
  rw [h]

theorem mergeStep_refBO_dict (st : PyState) (k : String) (e : RDict)
    (h : dictGet st.settings_data k = some .refBO) :
    mergeStep st k (.rdict e) = { st with boCell := dictUpdate st.boCell e } := by
  unfold mergeStep
  rw [h]

theorem mergeStep_val_dict (st : PyState) (k : String) (du e : RDict)
    (h : dictGet st.settings_data k = some (.val (.rdict du))) :
    mergeStep st k (.rdict e)
      = { st with settings_data :=
            dictSet st.settings_data k (.val (.rdict (dictUpdate du e))) } := by
  unfold mergeStep
  rw [h]

theorem mergeStep_get_none (st : PyState) (k : String) (v : RVal)
    (h : dictGet st.settings_data k = none) :
    mergeStep st k v
      = { st with settings_data := dictSet st.settings_data k (.val v) } := by
  unfold mergeStep
  rw [h]

theorem mergeStep_val_nondict (st : PyState) (k : String) (v u : RVal)
    (h : dictGet st.settings_data k = some (.val u)) (hu : isRDict u = false) :
    mergeStep st k v
      = { st with settings_data := dictSet st.settings_data k (.val v) } := by
  unfold mergeStep
  rw [h]
  cases u <;> cases v <;> first
    | rfl
    | simp [isRDict] at hu

theorem mergeStep_nondict (st : PyState) (k : String) (v : RVal)
    (hv : isRDict v = false) :
    mergeStep st k v
      = { st with settings_data := dictSet st.settings_data k (.val v) } := by
  unfold mergeStep
  rcases hg : dictGet st.settings_data k with _ | sv
  · rfl
  · rcases sv with _ | _ | u
    · cases v <;> first
        | rfl
        | simp [isRDict] at hv
    · cases v <;> first
        | rfl
        | simp [isRDict] at hv
    · cases u <;> cases v <;> first
        | rfl
        | simp [isRDict] at hv

theorem specMergeStep_get_none (acc : RDict) (k : String) (v : RVal)
    (h : dictGet acc k = none) : specMergeStep acc k v = dictSet acc k v := by
  unfold specMergeStep
  rw [h]

theorem specMergeStep_dict_dict (acc : RDict) (k : String) (d e : RDict)
    (h : dictGet acc k = some (.rdict d)) :
    specMergeStep acc k (.rdict e) = dictSet acc k (.rdict (dictUpdate d e)) := by
  unfold specMergeStep
  rw [h]

theorem specMergeStep_nondict (acc : RDict) (k : String) (v : RVal)
    (hv : isRDict v = false) : specMergeStep acc k v = dictSet acc k v := by
  unfold specMergeStep
  rcases h : dictGet acc k with _ | u
  · rfl
  · cases u <;> cases v <;> first
      | rfl
      | simp [isRDict] at hv

theorem specMergeStep_get_nondict (acc : RDict) (k : String) (v u : RVal)
    (h : dictGet acc k = some u) (hu : isRDict u = false) :
    specMergeStep acc k v = dictSet acc k v := by
  unfold specMergeStep
  rw [h]
  cases u <;> cases v <;> first
    | rfl
    | simp [isRDict] at hu

theorem dictGet_readSettings (st : PyState) (k : String) :
    dictGet (readSettings st) k
      = (dictGet st.settings_data k).map (readSV st.nrCell st.boCell) :=
  dictGet_readRow _ _ _ _

theorem mergeStep_read (st : PyState) (k : String) (v : RVal)
    (hnr : nrRefCount st.settings_data ≤ 1)
    (hbo : boRefCount st.settings_data ≤ 1) :
    readSettings (mergeStep st k v) = specMergeStep (readSettings st) k v := by
  by_cases hv : isRDict v = true
  case neg =>
    have hv' : isRDict v = false := by simpa using hv
    rw [mergeStep_nondict st k v hv', specMergeStep_nondict _ _ _ hv']
    exact readRow_dictSet_val _ _ _ _ _
  case pos =>
    obtain ⟨e, rfl⟩ : ∃ e, v = RVal.rdict e := by
      cases v <;> first
        | exact ⟨_, rfl⟩
        | simp [isRDict] at hv
    rcases hg : dictGet st.settings_data k with _ | sv
    · rw [mergeStep_get_none _ _ _ hg]
      have hacc : dictGet (readSettings st) k = none := by
        rw [dictGet_readSettings, hg]
        rfl
      rw [specMergeStep_get_none _ _ _ hacc]
      exact readRow_dictSet_val _ _ _ _ _
    · rcases sv with _ | _ | u
      · rw [mergeStep_refNR_dict _ _ _ hg]
        have hacc : dictGet (readSettings st) k = some (.rdict st.nrCell) := by
          rw [dictGet_readSettings, hg]
          rfl
        rw [specMergeStep_dict_dict _ _ _ _ hacc]
        exact readRow_set_nrCell st.nrCell (dictUpdate st.nrCell e) st.boCell
          st.settings_data k hg hnr
      · rw [mergeStep_refBO_dict _ _ _ hg]
        have hacc : dictGet (readSettings st) k = some (.rdict st.boCell) := by
          rw [dictGet_readSettings, hg]
          rfl
        rw [specMergeStep_dict_dict _ _ _ _ hacc]
        exact readRow_set_boCell st.nrCell st.boCell (dictUpdate st.boCell e)
          st.settings_data k hg hbo
      · by_cases hu : isRDict u = true
        · obtain ⟨du, rfl⟩ : ∃ du, u = RVal.rdict du := by
            cases u <;> first
              | exact ⟨_, rfl⟩
              | simp [isRDict] at hu
          rw [mergeStep_val_dict _ _ _ _ hg]
          have hacc : dictGet (readSettings st) k = some (.rdict du) := by
            rw [dictGet_readSettings, hg]
            rfl
          rw [specMergeStep_dict_dict _ _ _ _ hacc]
          exact readRow_dictSet_val _ _ _ _ _
        · have hu' : isRDict u = false := by simpa using hu
          rw [mergeStep_val_nondict _ _ _ _ hg hu']
          have hacc : dictGet (readSettings st) k = some u := by
            rw [dictGet_readSettings, hg]
            rfl
          rw [specMergeStep_get_nondict _ _ _ _ hacc hu']
          exact readRow_dictSet_val _ _ _ _ _

theorem nrRefCount_mergeStep (st : PyState) (k : String) (v : RVal) :
    nrRefCount (mergeStep st k v).settings_data
      ≤ nrRefCount st.settings_data := by
  unfold mergeStep
  split
  · exact le_refl _
  · exact le_refl _
  · exact nrRefCount_dictSet_val _ _ _
  · exact nrRefCount_dictSet_val _ _ _

theorem boRefCount_mergeStep (st : PyState) (k : String) (v : RVal) :
    boRefCount (mergeStep st k v).settings_data
      ≤ boRefCount st.settings_data := by
  unfold mergeStep
  split
  · exact le_refl _
  · exact le_refl _
  · exact boRefCount_dictSet_val _ _ _
  · exact boRefCount_dictSet_val _ _ _

theorem load_loop_read (items : List (String × RVal)) :
    ∀ st : PyState, nrRefCount st.settings_data ≤ 1 →
      boRefCount st.settings_data ≤ 1 →
      readSettings (items.foldl (fun s kv => mergeStep s kv.1 kv.2) st)
        = specMerge (readSettings st) items := by
  induction items with
  | nil =>
      intro st _ _
      rfl
  | cons kv rest ih =>
      intro st hnr hbo
      rw [List.foldl_cons]
      have hnr' := le_trans (nrRefCount_mergeStep st kv.1 kv.2) hnr
      have hbo' := le_trans (boRefCount_mergeStep st kv.1 kv.2) hbo
      rw [ih _ hnr' hbo', mergeStep_read st kv.1 kv.2 hnr hbo]
      rfl

theorem dictHas_dictSet {α : Type} (d : List (String × α)) (k k' : String)
    (v : α) (h : dictHas d k' = true) : dictHas (dictSet d k v) k' = true := by
  induction d with
  | nil => simp [dictHas, dictGet] at h
  | cons kv rest ih =>
      obtain ⟨k₁, v₁⟩ := kv
      by_cases hk : k₁ = k
      · simp only [dictSet, if_pos hk]
        by_cases hk' : k₁ = k'
        · simp [dictHas, dictGet, hk']
        · simp only [dictHas, dictGet, if_neg hk'] at h ⊢
          exact h
      · simp only [dictSet, if_neg hk]
        by_cases hk' : k₁ = k'
        · simp [dictHas, dictGet, hk']
        · simp only [dictHas, dictGet, if_neg hk'] at h ⊢
          exact ih h

theorem dictHas_mergeStep (st : PyState) (k : String) (v : RVal) (k' : String)
    (h : dictHas st.settings_data k' = true) :
    dictHas (mergeStep st k v).settings_data k' = true := by
  unfold mergeStep
  split
  · exact h
  · exact h
  · exact dictHas_dictSet _ _ _ _ h
  · exact dictHas_dictSet _ _ _ _ h

theorem dictHas_load_loop (items : List (String × RVal)) :
    ∀ (st : PyState) (k' : String), dictHas st.settings_data k' = true →
      dictHas
        ((items.foldl (fun s kv => mergeStep s kv.1 kv.2) st)).settings_data
        k' = true := by
  induction items with
  | nil =>
      intro st k' h
      exact h
  | cons kv rest ih =>
      intro st k' h
      exact ih _ _ (dictHas_mergeStep _ _ _ _ h)

theorem dictHas_of_mem {α : Type} (d : List (String × α)) (k : String) (v : α)
    (h : (k, v) ∈ d) : dictHas d k = true := by
  induction d with
  | nil => simp at h
  | cons kv rest ih =>
      obtain ⟨k₁, v₁⟩ := kv
      by_cases hk : k₁ = k
      · simp [dictHas, dictGet, hk]
      · rcases List.mem_cons.mp h with h1 | h1
        · exact absurd (congrArg Prod.fst h1).symm hk
        · simp only [dictHas, dictGet, if_neg hk]
          exact ih h1

/-- Claim C1: for every persisted settings file that parses as a JSON
object, load_settings returns the defaults merged one level deep with
the loaded values (specMerge, written from the claim wording: for each
top-level loaded key, if both the default and the loaded value are
nested mappings their keys are merged individually, otherwise the
loaded value fully replaces the default; keys absent from the file
keep their defaults, unknown file keys are preserved by the final
dictSet of the default branch), and the result contains every key of
the default schema. -/
theorem claim_C1_load_merges_defaults (home : String)
    (items : List (String × RVal)) :
    (load_settings home (initState home) (.parsed items)).2 = .ok ∧
    readSettings (load_settings home (initState home) (.parsed items)).1
      = specMerge (readSettings (initState home)) items ∧
    (DEFAULT_SETTINGS home).all
      (fun kv =>
        dictHas
          ((load_settings home (initState home) (.parsed items)).1).settings_data
          kv.1)
      = true := by
  refine ⟨rfl, ?_, ?_⟩
  · exact load_loop_read items (initState home) (le_refl 1) (le_refl 1)
  · rw [List.all_eq_true]
    intro kv hkv
    obtain ⟨k, v⟩ := kv
    exact dictHas_load_loop items (initState home) k
      (dictHas_of_mem (DEFAULT_SETTINGS home) k v hkv)

/-- Claim C6: for every malformed persisted settings file (invalid
JSON syntax or an IO failure while reading, both of which land in the
except branch of source lines 112-115, modelled by FileRead.corrupt),
load_settings yields exactly the default settings record and signals
the ConfigCorrupt condition (the error dialog of source line 114)
instead of propagating an error. -/
theorem claim_C6_corrupt_yields_defaults (home : String) :
    (load_settings home (initState home) .corrupt).2
      = LoadOutcome.configCorrupt ∧
    (load_settings home (initState home) .corrupt).1.settings_data
      = DEFAULT_SETTINGS home ∧
    readSettings (load_settings home (initState home) .corrupt).1
      = readSettings (initState home) :=
  ⟨rfl, rfl, rfl⟩

/-- The module state after one load of a settings file that overrides
the nested key naming_rules.no_spaces_folders to true, starting from
the pristine initial state. -/
def stateAfterOverrideLoad (home : String) : PyState :=
  (load_settings home (initState home)
    (.parsed [("naming_rules",
      .rdict [("no_spaces_folders", .rbool true)])])).1

/-- Claim C10: load_settings copies the default record only shallowly
(DEFAULT_SETTINGS.copy() at source line 103), so merging a nested
mapping mutates the nested dict object of the module-level
DEFAULT_SETTINGS itself (settings_data[key].update(value) at source
line 107 writes through the shared reference); consequently, after one
load that overrides naming_rules.no_spaces_folders to true
(stateAfterOverrideLoad), a later load of a missing or corrupt
settings file returns the previously merged value true instead of the
pristine default false. -/
theorem claim_C10_shallow_copy_mutates_defaults (home : String) :
    (stateAfterOverrideLoad home).nrCell
      = [("no_spaces_folders", .rbool true),
         ("no_spaces_files", .rbool false),
         ("convert_spaces_underscores", .rbool false)] ∧
    dictGet nrDefault "no_spaces_folders" = some (.rbool false) ∧
    dictGet
      (readSettings
        (load_settings home (stateAfterOverrideLoad home) .corrupt).1)
      "naming_rules"
      = some (.rdict
          [("no_spaces_folders", .rbool true),
           ("no_spaces_files", .rbool false),
           ("convert_spaces_underscores", .rbool false)]) ∧
    dictGet
      (readSettings
        (load_settings home (stateAfterOverrideLoad home) .missing).1)
      "naming_rules"
      = some (.rdict
          [("no_spaces_folders", .rbool true),
           ("no_spaces_files", .rbool false),
           ("convert_spaces_underscores", .rbool false)]) ∧
    dictGet (readSettings (initState home)) "naming_rules"
      = some (.rdict
          [("no_spaces_folders", .rbool false),
           ("no_spaces_files", .rbool false),
           ("convert_spaces_underscores", .rbool false)]) :=
  ⟨rfl, rfl, rfl, rfl, rfl⟩

/-- The observable outcome of one save_settings call: whether the
pre-write backup copy to SETTINGS_FILE.bak was made, whether the
settings were written to disk, and whether the call ended by raising
(source line 136; the surrounding safe_operation wrapper then surfaces
the error, the PersistenceError of the specification). -/
structure SaveOutcome where
  backupCopied : Bool
  settingsWritten : Bool
  raisedError : Bool
  deriving DecidableEq

/-- save_settings (source lines 120-136), as a function of which of
its filesystem operations succeed: fileExists is the check of line
126, copyFails makes the shutil.copy2 of line 128 raise, writeFails
makes the open/json.dump of lines 131-132 raise.  Both operations run
inside the same try block, and the except handler of lines 134-136
logs and re-raises, so an exception from either operation aborts the
whole call.  The body never assigns to settings_data, so the in-memory
settings are untouched in every case. -/
def save_settings (fileExists copyFails writeFails : Bool) : SaveOutcome :=
  if fileExists then
    if copyFails then ⟨false, false, true⟩
    else if writeFails then ⟨true, false, true⟩
    else ⟨true, true, false⟩
  else
    if writeFails then ⟨false, false, true⟩
    else ⟨false, true, false⟩

/-- Claim C5 counterexample: the claim states that a failure of the
backup copy does not block the save (the settings are still written).
The code puts the backup copy inside the same try block as the write
and re-raises on any exception, so when the settings file exists and
the backup copy fails, the settings are NOT written and the call fails
with a raised error, refuting the claim at this concrete input. -/
theorem claim_C5_counterexample :
    (save_settings true true false).settingsWritten = false ∧
    (save_settings true true false).raisedError = true :=
  ⟨rfl, rfl⟩

/-- Claim C5 as amended: before overwriting the persisted settings
file, the existing file is copied to a .bak sibling, but this backup
copy is not best-effort: a failure of the backup copy aborts the save
(the settings are not written) and fails with PersistenceError, just
as a failure of the write itself does; the backup is made exactly when
the file exists and the copy succeeds, and the save succeeds exactly
when no attempted operation fails.  (The in-memory settings are never
rolled back: the function body never assigns settings_data.) -/
theorem claim_C5_amended (fileExists copyFails writeFails : Bool) :
    (save_settings fileExists copyFails writeFails).raisedError
      = ((fileExists && copyFails) || writeFails) ∧
    (save_settings fileExists copyFails writeFails).settingsWritten
      = !((fileExists && copyFails) || writeFails) ∧
    (save_settings fileExists copyFails writeFails).backupCopied
      = (fileExists && !copyFails) := by
  cases fileExists <;> cases copyFails <;> cases writeFails <;>
    exact ⟨rfl, rfl, rfl⟩

/-- The three naming-rule flags (nested dict naming_rules of the
settings, source lines 53-57). -/
structure NamingRules where
  no_spaces_folders : Bool
  no_spaces_files : Bool
  convert_spaces_underscores : Bool
  deriving DecidableEq

/-- Python name.replace(" ", ""): remove every space character. -/
def removeSpaces (s : String) : String :=
  String.mk (s.data.filter (fun c => !(c = ' ')))

/-- Python name.replace(" ", "_"): replace every space character by an
underscore. -/
def spacesToUnderscores (s : String) : String :=
  String.mk (s.data.map (fun c => if c = ' ' then '_' else c))

/-- apply_naming_rules (source lines 832-840): strip spaces from
folder names if no_spaces_folders, strip spaces from file names if
no_spaces_files, then replace remaining spaces by underscores if
convert_spaces_underscores. -/
def apply_naming_rules (rules : NamingRules) (name : String)
    (is_folder : Bool) : String :=
  let name1 := if rules.no_spaces_folders && is_folder
    then removeSpaces name else name
  let name2 := if rules.no_spaces_files && !is_folder
    then removeSpaces name1 else name1
  if rules.convert_spaces_underscores
    then spacesToUnderscores name2 else name2

/-- Modelled from the claim C2 wording: the three-step reference
transformation, applied in order - (1) if is_folder and
no_spaces_folders, remove all spaces; (2) if not is_folder and
no_spaces_files, remove all spaces; (3) if
convert_spaces_underscores, replace all remaining spaces with
underscores. -/
def specNamingTransform (rules : NamingRules) (name : String)
    (is_folder : Bool) : String :=
  let step1 := if is_folder && rules.no_spaces_folders
    then removeSpaces name else name
  let step2 := if !is_folder && rules.no_spaces_files
    then removeSpaces step1 else step1
  if rules.convert_spaces_underscores
    then spacesToUnderscores step2 else step2

/-- Claim C2: apply_naming_rules equals the three-step reference
transformation applied in order, and in particular on "My Mod" as a
folder it gives "MyMod" when both no_spaces_folders and
convert_spaces_underscores are set (nothing left to convert), "My_Mod"
when only convert_spaces_underscores is set, and with only
no_spaces_folders set a file name is returned unchanged. -/
theorem claim_C2_apply_naming_rules :
    (∀ (rules : NamingRules) (name : String) (is_folder : Bool),
      apply_naming_rules rules name is_folder
        = specNamingTransform rules name is_folder) ∧
    (∀ b : Bool, apply_naming_rules ⟨true, b, true⟩ "My Mod" true = "MyMod") ∧
    (∀ b : Bool, apply_naming_rules ⟨false, b, true⟩ "My Mod" true = "My_Mod") ∧
    (∀ name : String,
      apply_naming_rules ⟨true, false, false⟩ name false = name) := by
  refine ⟨?_, ?_, ?_, ?_⟩
  · intro rules name is_folder
    obtain ⟨f, l, u⟩ := rules
    cases f <;> cases l <;> cases u <;> cases is_folder <;> rfl
  · intro b
    cases b <;> rfl
  · intro b
    cases b <;> rfl
  · intro name
    rfl

/-- A filesystem path, as the list of segments passed to os.path.join;
segment strings are treated as opaque names. -/
abbrev FPath := List String

/-- One filesystem effect of generate_mod.  mkdir is
os.makedirs(..., exist_ok=True), so it is idempotent; writeFile is
open(..., "w")/write (overwriting); copyFile is shutil.copyfile. -/
inductive FsOp where
  | mkdir : FPath → FsOp
  | writeFile : FPath → String → FsOp
  | copyFile : FPath → FPath → FsOp
  deriving DecidableEq

/-- The settings fields read by generate_mod: main_mods_folder (line
862), the naming rules (lines 834-838), init_py_in_scripts (lines 875
and 956, read with default True) and backup_options.always_backup
(line 972, read with default True). -/
structure GSettings where
  main_mods_folder : String
  naming_rules : NamingRules
  init_py_in_scripts : Bool
  always_backup : Bool
  deriving DecidableEq

/-- The four file-type checkboxes as generate_mod reads them. -/
structure Selection where
  script : Bool
  tuning : Bool
  package : Bool
  all : Bool
  deriving DecidableEq

/-- The two early-return error dialogs of generate_mod (source lines
850-855); both are the MissingName failure of the specification. -/
inductive GenError where
  | missingFolderName : GenError
  | missingFileName : GenError
  deriving DecidableEq

/-- The observable outcome of one generate_mod call: the filesystem
operations performed in order, the error (if the preconditions
failed), the created_files list (path and written content of each
file, in creation order) and whether the backup step failed with the
warning dialog of source line 984. -/
structure GenResult where
  trace : List FsOp
  error : Option GenError
  created_files : List (FPath × String)
  backupWarning : Bool
  deriving DecidableEq

/-- Python str.strip(): remove leading and trailing whitespace. -/
def pyStrip (s : String) : String :=
  String.mk
    (((s.data.dropWhile Char.isWhitespace).reverse.dropWhile
      Char.isWhitespace).reverse)

/-- Content of the package-marker file (source line 885). -/
def initContent : String :=
  "# __init__.py - Marks this folder as a Python package.\n"

/-- Content of the placeholder script file (source line 919). -/
def scriptContent : String := "# Placeholder script file\n"

/-- Content of the placeholder tuning file (source line 933). -/
def tuningContent : String := "<!-- Placeholder tuning file -->\n"

/-- Content of the empty package file (source line 946). -/
def packageContent : String := ""

/-- Content of modinfo.py (source lines 897-901): a fixed-shape record
with the cleaned file name, the placeholder author literal and version
1.0. -/
def modinfoContent (cleaned_file_name : String) : String :=
  String.mk ("modinfo = \x7b\n    \"Name\": \"".data
    ++ cleaned_file_name.data
    ++ "\",\n    \"Author\": \"YourNameHere\",\n    \"Version\": \"1.0\",\n\x7d\n".data)

/-- create_init_py (source lines 873-890): the marker file goes into
the Scripts subfolder (created first) if init_py_in_scripts, else
directly into the mod folder. -/
def create_init_py (init_py_in_scripts : Bool) (full_folder_path : FPath) :
    List FsOp × (FPath × String) :=
  if init_py_in_scripts then
    ([.mkdir (full_folder_path ++ ["Scripts"]),
      .writeFile (full_folder_path ++ ["Scripts", "__init__.py"]) initContent],
     (full_folder_path ++ ["Scripts", "__init__.py"], initContent))
  else
    ([.writeFile (full_folder_path ++ ["__init__.py"]) initContent],
     (full_folder_path ++ ["__init__.py"], initContent))

/-- create_modinfo_py (source lines 892-906). -/
def create_modinfo_py (full_folder_path : FPath)
    (cleaned_file_name : String) : List FsOp × (FPath × String) :=
  ([.writeFile (full_folder_path ++ ["modinfo.py"])
      (modinfoContent cleaned_file_name)],
   (full_folder_path ++ ["modinfo.py"], modinfoContent cleaned_file_name))

/-- create_script (source lines 912-924); it re-applies the naming
rules to the stripped file name. -/
def create_script (rules : NamingRules) (full_folder_path : FPath)
    (file_name : String) : List FsOp × (FPath × String) :=
  let script_file_name := apply_naming_rules rules file_name false
  ([.mkdir (full_folder_path ++ ["Scripts"]),
    .writeFile (full_folder_path ++ ["Scripts", script_file_name ++ ".py"])
      scriptContent],
   (full_folder_path ++ ["Scripts", script_file_name ++ ".py"], scriptContent))

/-- create_tuning (source lines 926-938). -/
def create_tuning (rules : NamingRules) (full_folder_path : FPath)
    (file_name : String) : List FsOp × (FPath × String) :=
  let tuning_file_name := apply_naming_rules rules file_name false
  ([.mkdir (full_folder_path ++ ["Tuning"]),
    .writeFile (full_folder_path ++ ["Tuning", tuning_file_name ++ ".xml"])
      tuningContent],
   (full_folder_path ++ ["Tuning", tuning_file_name ++ ".xml"], tuningContent))

/-- create_package (source lines 940-951). -/
def create_package (rules : NamingRules) (full_folder_path : FPath)
    (file_name : String) : List FsOp × (FPath × String) :=
  let package_file_name := apply_naming_rules rules file_name false
  ([.writeFile (full_folder_path ++ [package_file_name ++ ".package"])
      packageContent],
   (full_folder_path ++ [package_file_name ++ ".package"], packageContent))

/-- os.path.basename of a created file path: its last segment. -/
def basename (p : FPath) : String := p.getLastD ""

/-- The success path of generate_mod (source lines 856-995), for
already stripped non-empty names.  The trace records the filesystem
operations in program order; created_files mirrors the created_files
list of the source (path and written content of each created file, in
creation order).  The backup step (lines 971-984) runs whenever
always_backup is true; backupFails makes its try block fail, which the
code turns into a warning without failing the generation. -/
def generate_mod_body (settings : GSettings) (sel : Selection)
    (folder_name file_name : String) (backupFails : Bool) : GenResult :=
  let cleaned_folder_name :=
    apply_naming_rules settings.naming_rules folder_name true
  let cleaned_file_name :=
    apply_naming_rules settings.naming_rules file_name false
  let full_folder_path : FPath :=
    [settings.main_mods_folder, cleaned_folder_name]
  let modinfoR := create_modinfo_py full_folder_path cleaned_file_name
  let initR : List FsOp × List (FPath × String) :=
    if sel.all || sel.script || settings.init_py_in_scripts then
      ((create_init_py settings.init_py_in_scripts full_folder_path).1,
       [(create_init_py settings.init_py_in_scripts full_folder_path).2])
    else ([], [])
  let scriptR := create_script settings.naming_rules full_folder_path file_name
  let tuningR := create_tuning settings.naming_rules full_folder_path file_name
  let packageR :=
    create_package settings.naming_rules full_folder_path file_name
  let filesR : List FsOp × List (FPath × String) :=
    if sel.all then
      (scriptR.1 ++ tuningR.1 ++ packageR.1,
       [scriptR.2, tuningR.2, packageR.2])
    else
      ((if sel.script then scriptR.1 else [])
         ++ (if sel.tuning then tuningR.1 else [])
         ++ (if sel.package then packageR.1 else []),
       (if sel.script then [scriptR.2] else [])
         ++ (if sel.tuning then [tuningR.2] else [])
         ++ (if sel.package then [packageR.2] else []))
  let created_files := modinfoR.2 :: initR.2 ++ filesR.2
  let backup : List FsOp × Bool :=
    if settings.always_backup then
      if backupFails then ([], true)
      else
        ((FsOp.mkdir
            [settings.main_mods_folder, cleaned_folder_name ++ "_Backup"])
           :: created_files.map (fun pc =>
                FsOp.copyFile pc.1
                  ([settings.main_mods_folder,
                    cleaned_folder_name ++ "_Backup"] ++ [basename pc.1])),
         false)
    else ([], false)
  ⟨[FsOp.mkdir full_folder_path] ++ modinfoR.1 ++ initR.1 ++ filesR.1
     ++ backup.1,
   none, created_files, backup.2⟩

/-- generate_mod (source lines 842-999): strip both names (line
847-848), fail with the MissingName dialogs if either is empty (lines
850-855, before any filesystem operation), otherwise run the success
path. -/
def generate_mod (settings : GSettings) (sel : Selection)
    (folderInput fileInput : String) (backupFails : Bool) : GenResult :=
  if pyStrip folderInput = "" then ⟨[], some .missingFolderName, [], false⟩
  else if pyStrip fileInput = "" then ⟨[], some .missingFileName, [], false⟩
  else
    generate_mod_body settings sel (pyStrip folderInput) (pyStrip fileInput)
      backupFails

theorem generate_mod_ok (settings : GSettings) (sel : Selection)
    (folderInput fileInput : String) (backupFails : Bool)
    (hf : pyStrip folderInput ≠ "") (hn : pyStrip fileInput ≠ "") :
    generate_mod settings sel folderInput fileInput backupFails
      = generate_mod_body settings sel (pyStrip folderInput)
          (pyStrip fileInput) backupFails := by
  unfold generate_mod
  rw [if_neg hf, if_neg hn]

theorem modinfoContent_ne_initContent (s : String) :
    modinfoContent s ≠ initContent := by
  intro h
  have h2 : 'm' :: ("odinfo = \x7b\n    \"Name\": \"".data ++ s.data
      ++ "\",\n    \"Author\": \"YourNameHere\",\n    \"Version\": \"1.0\",\n\x7d\n".data)
      = '#' :: " __init__.py - Marks this folder as a Python package.\n".data :=
    congrArg String.data h
  injection h2 with hc _
  exact absurd hc (by decide)

theorem scriptContent_ne_initContent : scriptContent ≠ initContent := by
  decide

theorem tuningContent_ne_initContent : tuningContent ≠ initContent := by
  decide

theorem packageContent_ne_initContent : packageContent ≠ initContent := by
  decide

/-- Claim C3: for every generation request with non-empty stripped
names, the package-marker (__init__.py) file is created if and only if
selection.all or selection.script or settings.init_py_in_scripts
(source line 956, an inclusive or, so selecting no file types still
creates the marker when init_py_in_scripts is true); and when created
it is placed inside the Scripts subdirectory if init_py_in_scripts is
true, else directly in the target directory (source lines 875-882),
which the expected path on the left of the iff encodes. -/
theorem claim_C3_init_marker (settings : GSettings) (sel : Selection)
    (folderInput fileInput : String) (backupFails : Bool)
    (hf : pyStrip folderInput ≠ "") (hn : pyStrip fileInput ≠ "") :
    (((if settings.init_py_in_scripts then
        [settings.main_mods_folder,
         apply_naming_rules settings.naming_rules (pyStrip folderInput) true,
         "Scripts", "__init__.py"]
       else
        [settings.main_mods_folder,
         apply_naming_rules settings.naming_rules (pyStrip folderInput) true,
         "__init__.py"]), initContent)
      ∈ (generate_mod settings sel folderInput fileInput
          backupFails).created_files)
    ↔ (sel.all || sel.script || settings.init_py_in_scripts) = true := by
  rw [generate_mod_ok settings sel folderInput fileInput backupFails hf hn]
  obtain ⟨ms, rules, ipis, ab⟩ := settings
  obtain ⟨s, t, p, a⟩ := sel
  cases a <;> cases s <;> cases ipis <;> cases t <;> cases p <;>
    simp [generate_mod_body, create_modinfo_py, create_init_py, create_script,
      create_tuning, create_package, modinfoContent_ne_initContent,
      scriptContent_ne_initContent, tuningContent_ne_initContent,
      packageContent_ne_initContent]
  all_goals exact fun _ h => absurd h (by decide)

/-- Witness for claim C3 at a concrete input: with default-style
settings (init_py_in_scripts true) and no file type selected, the
marker file is still created, inside the Scripts subdirectory. -/
theorem claim_C3_witness :
    (["Mods", "My Mod", "Scripts", "__init__.py"], initContent)
      ∈ (generate_mod ⟨"Mods", ⟨false, false, false⟩, true, true⟩
          ⟨false, false, false, false⟩ "My Mod" "My File"
          false).created_files :=
  (claim_C3_init_marker ⟨"Mods", ⟨false, false, false⟩, true, true⟩
    ⟨false, false, false, false⟩ "My Mod" "My File" false
    (by decide) (by decide)).mpr (by decide)

/-- Claim C4: for every generation request with non-empty stripped
names, a modinfo.py descriptor is created at the target directory
root, unconditionally and regardless of the selection, containing the
fixed-shape record with Name the cleaned file name, the placeholder
author literal and version 1.0 (modinfoContent), and its path is
recorded first in the result sequence, which is therefore never empty
on a successful generation. -/
theorem claim_C4_modinfo_always (settings : GSettings) (sel : Selection)
    (folderInput fileInput : String) (backupFails : Bool)
    (hf : pyStrip folderInput ≠ "") (hn : pyStrip fileInput ≠ "") :
    (generate_mod settings sel folderInput fileInput backupFails).error
      = none ∧
    (generate_mod settings sel folderInput fileInput
        backupFails).created_files.head?
      = some ([settings.main_mods_folder,
               apply_naming_rules settings.naming_rules
                 (pyStrip folderInput) true,
               "modinfo.py"],
              modinfoContent (apply_naming_rules settings.naming_rules
                (pyStrip fileInput) false)) ∧
    (generate_mod settings sel folderInput fileInput
        backupFails).created_files ≠ [] := by
  rw [generate_mod_ok settings sel folderInput fileInput backupFails hf hn]
  refine ⟨rfl, rfl, ?_⟩
  exact List.cons_ne_nil _ _

/-- Witness for claim C4 at a concrete input. -/
theorem claim_C4_witness :
    (generate_mod ⟨"Mods", ⟨false, false, false⟩, true, true⟩
        ⟨false, false, true, false⟩ "My Mod" "My File" false).error
      = none ∧
    (generate_mod ⟨"Mods", ⟨false, false, false⟩, true, true⟩
        ⟨false, false, true, false⟩ "My Mod" "My File"
        false).created_files.head?
      = some (["Mods", "My Mod", "modinfo.py"], modinfoContent "My File") ∧
    (generate_mod ⟨"Mods", ⟨false, false, false⟩, true, true⟩
        ⟨false, false, true, false⟩ "My Mod" "My File"
        false).created_files ≠ [] :=
  claim_C4_modinfo_always ⟨"Mods", ⟨false, false, false⟩, true, true⟩
    ⟨false, false, true, false⟩ "My Mod" "My File" false
    (by decide) (by decide)

/-- Claim C7: for every generation request in which the folder name or
the file name is empty after stripping surrounding whitespace, the
generation fails with a MissingName error (one of the two dialogs of
source lines 850-855) and performs no filesystem mutation: the trace
is empty and the result sequence is empty. -/
theorem claim_C7_missing_name (settings : GSettings) (sel : Selection)
    (folderInput fileInput : String) (backupFails : Bool)
    (h : pyStrip folderInput = "" ∨ pyStrip fileInput = "") :
    (generate_mod settings sel folderInput fileInput backupFails).trace
      = [] ∧
    (generate_mod settings sel folderInput fileInput
        backupFails).created_files = [] ∧
    (generate_mod settings sel folderInput fileInput
        backupFails).backupWarning = false ∧
    ((generate_mod settings sel folderInput fileInput backupFails).error
        = some .missingFolderName ∨
     (generate_mod settings sel folderInput fileInput backupFails).error
        = some .missingFileName) := by
  unfold generate_mod
  by_cases h1 : pyStrip folderInput = ""
  · simp [h1]
  · rcases h with h | h
    · exact absurd h h1
    · simp [h1, h]

/-- Witness for claim C7 at a concrete input: an all-whitespace folder
name. -/
theorem claim_C7_witness :
    (generate_mod ⟨"Mods", ⟨false, false, false⟩, true, true⟩
        ⟨true, true, true, true⟩ "   " "My File" false).trace = [] ∧
    (generate_mod ⟨"Mods", ⟨false, false, false⟩, true, true⟩
        ⟨true, true, true, true⟩ "   " "My File" false).created_files
      = [] ∧
    (generate_mod ⟨"Mods", ⟨false, false, false⟩, true, true⟩
        ⟨true, true, true, true⟩ "   " "My File" false).backupWarning
      = false ∧
    ((generate_mod ⟨"Mods", ⟨false, false, false⟩, true, true⟩
        ⟨true, true, true, true⟩ "   " "My File" false).error
        = some .missingFolderName ∨
     (generate_mod ⟨"Mods", ⟨false, false, false⟩, true, true⟩
        ⟨true, true, true, true⟩ "   " "My File" false).error
        = some .missingFileName) :=
  claim_C7_missing_name ⟨"Mods", ⟨false, false, false⟩, true, true⟩
    ⟨true, true, true, true⟩ "   " "My File" false (Or.inl (by decide))

/-- Claim C8: for every pair of names, every settings record and every
backup behaviour, generating with selection all set true produces
exactly the same result (same trace, same created files with the same
paths and contents) as generating with script, tuning and package all
set true, regardless of the individual script/tuning/package flags
accompanying the all flag (source lines 959-969). -/
theorem claim_C8_all_equivalence (settings : GSettings) (s t p : Bool)
    (folderInput fileInput : String) (backupFails : Bool) :
    generate_mod settings ⟨s, t, p, true⟩ folderInput fileInput backupFails
      = generate_mod settings ⟨true, true, true, false⟩ folderInput fileInput
          backupFails := by
  unfold generate_mod
  by_cases h1 : pyStrip folderInput = ""
  · simp [h1]
  · by_cases h2 : pyStrip fileInput = ""
    · simp [h1, h2]
    · simp only [h1, h2, if_neg, if_false]
      unfold generate_mod_body
      simp

/-- Claim C9: for every generation with always_backup true and a
non-empty result sequence, a sibling directory named
target-directory_Backup is created (by the idempotent
makedirs of source line 976) and each created file is copied into it
under its base name only, flattening the Scripts/Tuning subdirectory
structure (lines 977-980); and a failure during the backup step is
non-fatal - the generation still succeeds, with the warning dialog of
line 984 instead of an error. -/
theorem claim_C9_backup_flattened (settings : GSettings) (sel : Selection)
    (folderInput fileInput : String)
    (hb : settings.always_backup = true)
    (hf : pyStrip folderInput ≠ "") (hn : pyStrip fileInput ≠ "")
    (hne : (generate_mod settings sel folderInput fileInput
        false).created_files ≠ []) :
    (FsOp.mkdir [settings.main_mods_folder,
        apply_naming_rules settings.naming_rules (pyStrip folderInput) true
          ++ "_Backup"]
      ∈ (generate_mod settings sel folderInput fileInput false).trace) ∧
    (∀ pc ∈ (generate_mod settings sel folderInput fileInput
        false).created_files,
      FsOp.copyFile pc.1
        ([settings.main_mods_folder,
          apply_naming_rules settings.naming_rules (pyStrip folderInput) true
            ++ "_Backup"] ++ [basename pc.1])
        ∈ (generate_mod settings sel folderInput fileInput false).trace) ∧
    (generate_mod settings sel folderInput fileInput false).error = none ∧
    (generate_mod settings sel folderInput fileInput false).backupWarning
      = false ∧
    (generate_mod settings sel folderInput fileInput true).error = none ∧
    (generate_mod settings sel folderInput fileInput true).backupWarning
      = true ∧
    (generate_mod settings sel folderInput fileInput true).created_files
      = (generate_mod settings sel folderInput fileInput
          false).created_files := by
  rw [generate_mod_ok settings sel folderInput fileInput false hf hn,
      generate_mod_ok settings sel folderInput fileInput true hf hn]
  obtain ⟨ms, rules, ipis, ab⟩ := settings
  simp only at hb
  subst hb
  refine ⟨List.mem_append_right _ (List.mem_cons_self _ _), ?_, rfl, rfl,
    rfl, rfl, rfl⟩
  intro pc hpc
  exact List.mem_append_right _
    (List.mem_cons_of_mem _ (List.mem_map_of_mem _ hpc))

/-- Witness for claim C9 at a concrete input: the backup directory is
created next to the target directory, and a failing backup still
leaves the generation successful with only a warning. -/
theorem claim_C9_witness :
    (FsOp.mkdir ["Mods", "My Mod_Backup"]
      ∈ (generate_mod ⟨"Mods", ⟨false, false, false⟩, true, true⟩
          ⟨false, false, true, false⟩ "My Mod" "My File" false).trace) ∧
    (generate_mod ⟨"Mods", ⟨false, false, false⟩, true, true⟩
        ⟨false, false, true, false⟩ "My Mod" "My File" true).error
      = none ∧
    (generate_mod ⟨"Mods", ⟨false, false, false⟩, true, true⟩
        ⟨false, false, true, false⟩ "My Mod" "My File" true).backupWarning
      = true := by
  have h := claim_C9_backup_flattened
    ⟨"Mods", ⟨false, false, false⟩, true, true⟩
    ⟨false, false, true, false⟩ "My Mod" "My File" rfl (by decide)
    (by decide) (by decide)
  exact ⟨h.1, h.2.2.2.2.1, h.2.2.2.2.2.1⟩
